import Mathlib

/-!
Shallow embedding of the `crab` credential manager (Rust) in Lean 4.

The embedding follows the source files:
  * `src/model/entry.rs`    — `CredentialEntry` and its constructors/updaters.
    Calls to `SystemTime::now()` are modelled by an explicit `now : Nat`
    parameter (seconds since the Unix epoch, a `u64` in the source).
  * `src/model/database.rs` — `CredentialDatabase` and its operations.
  * `src/error.rs`          — the `CredentialError` enum and `exit_code`.
  * `src/storage/file.rs`   — path resolution and the persistence layer,
    modelled over an explicit file-system state.
-/

set_option autoImplicit false

namespace Crab

/-! ### `src/model/entry.rs` -/

/-- `CredentialEntry` from `src/model/entry.rs`: one stored credential.
`created_at` and `updated_at` are `u64` seconds-since-epoch timestamps. -/
structure CredentialEntry where
  service : String
  account : String
  secret : String
  created_at : Nat
  updated_at : Nat
deriving DecidableEq

/-- `CredentialEntry::new`: sets both timestamps to the current time `now`. -/
def CredentialEntry.new (service account secret : String) (now : Nat) : CredentialEntry :=
  { service := service, account := account, secret := secret,
    created_at := now, updated_at := now }

/-- `CredentialEntry::update_service`: overwrites `service`, refreshes `updated_at`. -/
def CredentialEntry.update_service (e : CredentialEntry) (new_service : String) (now : Nat) :
    CredentialEntry :=
  { e with service := new_service, updated_at := now }

/-- `CredentialEntry::update_account`: overwrites `account`, refreshes `updated_at`. -/
def CredentialEntry.update_account (e : CredentialEntry) (new_account : String) (now : Nat) :
    CredentialEntry :=
  { e with account := new_account, updated_at := now }

/-- `CredentialEntry::update_secret`: overwrites `secret`, refreshes `updated_at`. -/
def CredentialEntry.update_secret (e : CredentialEntry) (new_secret : String) (now : Nat) :
    CredentialEntry :=
  { e with secret := new_secret, updated_at := now }

/-! ### `src/model/database.rs` -/

/-- `CredentialDatabase` from `src/model/database.rs`. -/
structure CredentialDatabase where
  entries : List CredentialEntry
  version : String
deriving DecidableEq

/-- `CredentialDatabase::new`: empty entries, version "1.0". -/
def CredentialDatabase.new : CredentialDatabase :=
  { entries := [], version := "1.0" }

/-- `CredentialDatabase::add_entry`: `self.entries.push(entry)`. -/
def CredentialDatabase.add_entry (db : CredentialDatabase) (entry : CredentialEntry) :
    CredentialDatabase :=
  { db with entries := db.entries ++ [entry] }

/-- `CredentialDatabase::remove_entry`:
`self.entries.retain(|entry| entry.service != service)`.
In the source this function returns `()` (no boolean), so the model returns
only the updated database. -/
def CredentialDatabase.remove_entry (db : CredentialDatabase) (service : String) :
    CredentialDatabase :=
  { db with entries := db.entries.filter (fun e => e.service != service) }

/-- `CredentialDatabase::find_entry`:
`self.entries.iter().find(|entry| entry.service == service)`. -/
def CredentialDatabase.find_entry (db : CredentialDatabase) (service : String) :
    Option CredentialEntry :=
  db.entries.find? (fun e => e.service == service)

/-- Position of the first element satisfying `p`, mirroring the traversal of
`iter_mut().find` in `CredentialDatabase::edit_entry`. -/
def findIndexOf (p : CredentialEntry → Bool) : List CredentialEntry → Option Nat
  | [] => none
  | e :: rest => if p e then some 0 else (findIndexOf p rest).map (· + 1)

/-- `CredentialDatabase::edit_entry`:
`self.entries.iter_mut().find(|entry| entry.service == service)`.
The returned `Option<&mut CredentialEntry>` (a mutable handle into the vector)
is modelled as the index of the designated entry. -/
def CredentialDatabase.edit_entry (db : CredentialDatabase) (service : String) : Option Nat :=
  findIndexOf (fun e => e.service == service) db.entries

/-- `CredentialDatabase::list_entries`: `self.entries.iter().collect()`. -/
def CredentialDatabase.list_entries (db : CredentialDatabase) : List CredentialEntry :=
  db.entries

/-- `CredentialDatabase::len`: `self.entries.len()`. -/
def CredentialDatabase.len (db : CredentialDatabase) : Nat :=
  db.entries.length

/-! ### `src/error.rs` -/

/-- The `std::io::ErrorKind` values this program constructs or inspects. -/
inductive IoErrorKind where
  | notFound
  | other
deriving DecidableEq

/-- `CredentialError` from `src/error.rs`. `IoError` carries the wrapped
`std::io::Error` as (kind, message); `SerializationError` carries the
`serde_json::Error` message. Note the enum has exactly these six variants:
there is no `PathResolutionError` variant. -/
inductive CredentialError where
  | DatabaseNotFound
  | CredentialNotStored
  | CredentialNotFound (service : String)
  | IoError (kind : IoErrorKind) (msg : String)
  | SerializationError (msg : String)
  | UserCancelled
deriving DecidableEq

/-- `CredentialError::exit_code` from `src/error.rs`. -/
def CredentialError.exit_code : CredentialError → Int
  | .UserCancelled => 100
  | .DatabaseNotFound => 1
  | .CredentialNotFound _ => 2
  | .CredentialNotStored => 3
  | .IoError _ _ => 4
  | .SerializationError _ => 5

/-- Discriminant of a `CredentialError`: which of the six variants it is,
ignoring payloads. -/
def CredentialError.kind_index : CredentialError → Nat
  | .DatabaseNotFound => 0
  | .CredentialNotStored => 1
  | .CredentialNotFound _ => 2
  | .IoError _ _ => 3
  | .SerializationError _ => 4
  | .UserCancelled => 5

/-- Whether an error is the `IoError` variant — the variant produced by the
`From<std::io::Error>` conversion, i.e. an ordinary I/O error. -/
def CredentialError.is_io_error : CredentialError → Bool
  | .IoError _ _ => true
  | _ => false

/-! ### JSON values, modelling `serde_json`

`save_database` serializes with `serde_json::to_string_pretty` and
`load_database` parses with `serde_json::from_str`. The JSON text itself is
external library behaviour; the model works at the level of JSON values
(`serde_json::Value`), relying on print-then-parse of `serde_json` being the
identity on the values this program produces (objects, arrays, strings and
`u64` numbers). -/

/-- A JSON value. Numbers are restricted to the non-negative integers, the
only numbers this program ever writes (`u64` timestamps). -/
inductive Json where
  | null
  | bool (b : Bool)
  | num (n : Nat)
  | str (s : String)
  | arr (elems : List Json)
  | obj (fields : List (String × Json))

/-- Serde `Serialize` for `CredentialEntry` (derived): an object with the
struct fields in declaration order. -/
def entryToJson (e : CredentialEntry) : Json :=
  .obj [("service", .str e.service), ("account", .str e.account),
        ("secret", .str e.secret), ("created_at", .num e.created_at),
        ("updated_at", .num e.updated_at)]

/-- Serde `Serialize` for `CredentialDatabase` (derived). -/
def dbToJson (db : CredentialDatabase) : Json :=
  .obj [("entries", .arr (db.entries.map entryToJson)), ("version", .str db.version)]

/-- Fetch a required field from a JSON object, as serde `Deserialize` does:
a missing field is a deserialization error. -/
def getField (fields : List (String × Json)) (name : String) : Except String Json :=
  match fields.find? (fun p => p.fst == name) with
  | some p => .ok p.snd
  | none => .error ("missing field " ++ name)

/-- Deserialize a JSON value as a Rust `String`. -/
def asStr : Json → Except String String
  | .str s => .ok s
  | _ => .error "expected string"

/-- Deserialize a JSON value as a Rust `u64`: it must be a non-negative
integer below `2 ^ 64`. -/
def asU64 : Json → Except String Nat
  | .num n => if n < 2 ^ 64 then .ok n else .error "u64 out of range"
  | _ => .error "expected u64"

/-- Serde `Deserialize` for `CredentialEntry` (derived): all five fields are
required and must have the right types. -/
def entryFromJson : Json → Except String CredentialEntry
  | .obj fields => do
      let service ← asStr (← getField fields "service")
      let account ← asStr (← getField fields "account")
      let secret ← asStr (← getField fields "secret")
      let created_at ← asU64 (← getField fields "created_at")
      let updated_at ← asU64 (← getField fields "updated_at")
      .ok { service := service, account := account, secret := secret,
            created_at := created_at, updated_at := updated_at }
  | _ => .error "expected object"

/-- Deserialize a sequence of entries, stopping at the first failure. -/
def entryListFromJson : List Json → Except String (List CredentialEntry)
  | [] => .ok []
  | j :: rest => do
      let e ← entryFromJson j
      let es ← entryListFromJson rest
      .ok (e :: es)

/-- Serde `Deserialize` for `CredentialDatabase` (derived). -/
def dbFromJson : Json → Except String CredentialDatabase
  | .obj fields => do
      let entriesJson ← getField fields "entries"
      let entries ←
        match entriesJson with
        | .arr elems => entryListFromJson elems
        | _ => .error "expected array"
      let version ← asStr (← getField fields "version")
      .ok { entries := entries, version := version }
  | _ => .error "expected object"

/-! ### File-system state, for `src/storage/file.rs`

The persistence layer is modelled over an explicit file-system state: the
home directory as reported by `dirs::home_dir()` and a map from paths to
file contents. Paths are lists of components; `PathBuf::join` is list
append and `PathBuf::with_file_name` replaces the last component. A file's
content is either a parsed JSON value (what `fs::write` of serialized JSON
leaves behind) or raw non-JSON text. -/

/-- Content of a file: a JSON document, or raw text that is not valid JSON. -/
inductive Content where
  | json (j : Json)
  | raw (s : String)

/-- The file-system state visible to `src/storage/file.rs`. -/
structure FileSys where
  homeDir : Option (List String)
  files : List (List String × Content)

/-- Content stored at `path`, newest write first. -/
def lookupFile (files : List (List String × Content)) (path : List String) : Option Content :=
  (files.find? (fun p => p.fst == path)).map (fun p => p.snd)

/-- `fs::write` / `fs::copy` target: (over)write `path` with content `c`. -/
def writeFile (files : List (List String × Content)) (path : List String) (c : Content) :
    List (List String × Content) :=
  (path, c) :: files

/-- `fs::remove_file`: drop every binding of `path`. -/
def removeFile (files : List (List String × Content)) (path : List String) :
    List (List String × Content) :=
  files.filter (fun p => p.fst != path)

/-! ### `src/storage/file.rs` -/

/-- `get_database_path`: `dirs::home_dir()` joined with `.crab/credentials.json`.
When the home directory cannot be determined the source builds
`CredentialError::IoError(io::Error::new(ErrorKind::NotFound, "Home directory not found"))`. -/
def get_database_path (fs : FileSys) : Except CredentialError (List String) :=
  match fs.homeDir with
  | none => .error (.IoError .notFound "Home directory not found")
  | some home => .ok (home ++ [".crab", "credentials.json"])

/-- `serde_json::from_str` composed with `Deserialize`: raw non-JSON text and
JSON of the wrong shape both fail. -/
def parseContent : Content → Except String CredentialDatabase
  | .json j => dbFromJson j
  | .raw _ => .error "expected value"

/-- `save_database`: resolve the path, ensure the parent directory exists
(directories are not modelled), serialize, and write the whole file.
Stateful operations return the result paired with the file system afterwards. -/
def save_database (db : CredentialDatabase) (fs : FileSys) :
    Except CredentialError Unit × FileSys :=
  match get_database_path fs with
  | .error e => (.error e, fs)
  | .ok path => (.ok (), { fs with files := writeFile fs.files path (.json (dbToJson db)) })

/-- `load_database`: missing file yields a fresh `CredentialDatabase::new()`;
an existing file is read in full and parsed, and a parse failure propagates
as `SerializationError` (the `From<serde_json::Error>` conversion). -/
def load_database (fs : FileSys) : Except CredentialError CredentialDatabase :=
  match get_database_path fs with
  | .error e => .error e
  | .ok path =>
    match lookupFile fs.files path with
    | none => .ok CredentialDatabase.new
    | some c =>
      match parseContent c with
      | .ok db => .ok db
      | .error m => .error (.SerializationError m)

/-- `database_exists`: quiet boolean query; path-resolution failure is `false`. -/
def database_exists (fs : FileSys) : Bool :=
  match get_database_path fs with
  | .ok path => (lookupFile fs.files path).isSome
  | .error _ => false

/-- `delete_database`: remove the file if it exists, else `DatabaseNotFound`. -/
def delete_database (fs : FileSys) : Except CredentialError Unit × FileSys :=
  match get_database_path fs with
  | .error e => (.error e, fs)
  | .ok path =>
    if (lookupFile fs.files path).isSome then
      (.ok (), { fs with files := removeFile fs.files path })
    else
      (.error .DatabaseNotFound, fs)

/-- The backup file name `credentials_{timestamp}.json.bak`. -/
def backup_filename (timestamp : Nat) : String :=
  "credentials_" ++ Nat.repr timestamp ++ ".json.bak"

/-- `PathBuf::with_file_name`: replace the last path component. -/
def with_file_name (path : List String) (name : String) : List String :=
  path.dropLast ++ [name]

/-- `backup_database`: error with `DatabaseNotFound` if the primary file does
not exist; otherwise `fs::copy` the primary file to the sibling path named
`credentials_{timestamp}.json.bak`. `SystemTime::now()` is the explicit
`now` parameter. -/
def backup_database (now : Nat) (fs : FileSys) : Except CredentialError Unit × FileSys :=
  match get_database_path fs with
  | .error e => (.error e, fs)
  | .ok path =>
    match lookupFile fs.files path with
    | none => (.error .DatabaseNotFound, fs)
    | some c =>
      (.ok (), { fs with files := writeFile fs.files (with_file_name path (backup_filename now)) c })

/-- Well-formed entries: the timestamps fit in a `u64` (automatic in Rust,
where the fields have type `u64`). -/
def wellFormedDb (db : CredentialDatabase) : Prop :=
  ∀ e ∈ db.entries, e.created_at < 2 ^ 64 ∧ e.updated_at < 2 ^ 64

instance decWellFormedDb (db : CredentialDatabase) : Decidable (wellFormedDb db) :=
  inferInstanceAs (Decidable (∀ e ∈ db.entries, e.created_at < 2 ^ 64 ∧ e.updated_at < 2 ^ 64))

/-! ### Helper lemmas -/

/-- The timestamp invariant of an entry. -/
def tsInv (e : CredentialEntry) : Prop := e.created_at ≤ e.updated_at

instance decTsInv (e : CredentialEntry) : Decidable (tsInv e) :=
  inferInstanceAs (Decidable (e.created_at ≤ e.updated_at))

/-- Characterisation of `findIndexOf`: it is defined exactly when `find?` is,
and an index it returns points at the first element satisfying `p`. -/
theorem findIndexOf_spec (p : CredentialEntry → Bool) (l : List CredentialEntry) :
    ((findIndexOf p l).isSome ↔ (l.find? p).isSome) ∧
    (∀ i, findIndexOf p l = some i →
      ∃ h : i < l.length,
        l.find? p = some (l.get ⟨i, h⟩) ∧ p (l.get ⟨i, h⟩) = true ∧
        ∀ j (hj : j < l.length), j < i → p (l.get ⟨j, hj⟩) = false) := by
  induction l with
  | nil => simp [findIndexOf]
  | cons a rest ih =>
    by_cases hpa : p a
    · refine ⟨by simp [findIndexOf, hpa, List.find?_cons_of_pos _ hpa], ?_⟩
      intro i hi
      simp [findIndexOf, hpa] at hi
      subst hi
      refine ⟨by simp, ?_, by simpa using hpa, ?_⟩
      · simp [List.find?_cons_of_pos _ hpa]
      · intro j hj hji
        omega
    · refine ⟨?_, ?_⟩
      · simpa [findIndexOf, hpa, List.find?_cons_of_neg _ hpa] using ih.1
      · intro i hi
        simp [findIndexOf, hpa] at hi
        obtain ⟨i0, hi0, rfl⟩ := hi
        obtain ⟨h0, hfind, hp, hprev⟩ := ih.2 i0 hi0
        refine ⟨by simpa using Nat.succ_lt_succ h0, ?_, ?_, ?_⟩
        · simpa [List.find?_cons_of_neg _ hpa] using hfind
        · simpa using hp
        · intro j hj hji
          match j with
          | 0 => simpa using hpa
          | j0 + 1 =>
            have hj0 : j0 < rest.length := by simpa using hj
            simpa using hprev j0 hj0 (by omega)

/-- Reading back the path just written returns the new content. -/
theorem lookup_write_same (files : List (List String × Content)) (p : List String) (c : Content) :
    lookupFile (writeFile files p c) p = some c := by
  simp [lookupFile, writeFile, List.find?]

/-- Writing one path leaves the content of any other path unchanged. -/
theorem lookup_write_ne (files : List (List String × Content)) (p q : List String) (c : Content)
    (h : p ≠ q) : lookupFile (writeFile files p c) q = lookupFile files q := by
  have hb : (p == q) = false := beq_eq_false_iff_ne.mpr h
  simp [lookupFile, writeFile, List.find?, hb]

/-- Entry-level serde round-trip: deserializing the serialization of an entry
whose timestamps fit in `u64` gives the entry back. -/
theorem entry_roundtrip (e : CredentialEntry) (h1 : e.created_at < 2 ^ 64)
    (h2 : e.updated_at < 2 ^ 64) : entryFromJson (entryToJson e) = .ok e := by
  have hpow : (2 : Nat) ^ 64 = 18446744073709551616 := by norm_num
  have h1l : e.created_at < 18446744073709551616 := hpow ▸ h1
  have h2l : e.updated_at < 18446744073709551616 := hpow ▸ h2
  simp [entryFromJson, entryToJson, getField, asStr, asU64, List.find?, h1l, h2l,
    Bind.bind, Except.bind]

/-- List-level serde round-trip. -/
theorem entry_list_roundtrip (l : List CredentialEntry)
    (h : ∀ e ∈ l, e.created_at < 2 ^ 64 ∧ e.updated_at < 2 ^ 64) :
    entryListFromJson (l.map entryToJson) = .ok l := by
  induction l with
  | nil => rfl
  | cons a rest ih =>
    have ha := h a (by simp)
    have hrest : ∀ e ∈ rest, e.created_at < 2 ^ 64 ∧ e.updated_at < 2 ^ 64 :=
      fun e he => h e (by simp [he])
    simp [entryListFromJson, entry_roundtrip a ha.1 ha.2, ih hrest, Bind.bind, Except.bind]

/-- Database-level serde round-trip. -/
theorem db_roundtrip (db : CredentialDatabase) (h : wellFormedDb db) :
    dbFromJson (dbToJson db) = .ok db := by
  simp [dbFromJson, dbToJson, getField, asStr, List.find?,
    entry_list_roundtrip db.entries h, Bind.bind, Except.bind]

/-- `with_file_name` on the database path replaces `credentials.json`. -/
theorem with_file_name_db_path (home : List String) (name : String) :
    with_file_name (home ++ [".crab", "credentials.json"]) name = home ++ [".crab", name] := by
  show (home ++ [".crab", "credentials.json"]).dropLast ++ [name] = home ++ [".crab", name]
  rw [show home ++ [".crab", "credentials.json"] =
      (home ++ [".crab"]) ++ ["credentials.json"] from by simp]
  rw [List.dropLast_concat]
  simp

/-- A backup file name is never the primary file name (their lengths differ). -/
theorem backup_filename_ne (now : Nat) : backup_filename now ≠ "credentials.json" := by
  intro h
  have hlen := congrArg String.length h
  have h1 : ("credentials_" : String).length = 12 := rfl
  have h2 : (".json.bak" : String).length = 9 := rfl
  have h3 : ("credentials.json" : String).length = 16 := rfl
  simp [backup_filename, String.length_append, h1, h2, h3] at hlen
  omega

/-- The backup path differs from the primary database path. -/
theorem backup_path_ne (home : List String) (now : Nat) :
    home ++ [".crab", backup_filename now] ≠ home ++ [".crab", "credentials.json"] := by
  intro h
  exact backup_filename_ne now (by simpa using h)

/-! ### Claims about the in-memory model -/

/-- C3 (code evaluated at the failing input): `remove_entry("github")` on a
store holding exactly one entry for "github" yields the store with that entry
removed — but the source function returns `()` and produces no boolean at
all, while `cli/commands.rs` consumes its result as a `bool`
(`confirm && database.remove_entry(service)`). -/
theorem remove_entry_eval_at_failing_input :
    CredentialDatabase.remove_entry
      { entries := [CredentialEntry.new "github" "account" "secret" 0], version := "1.0" }
      "github"
    = { entries := [], version := "1.0" } := rfl

/-- C4: `new` establishes `created_at = updated_at = now` (hence the
invariant `updated_at >= created_at`), and each update operation, run at a
clock reading `t` not earlier than the entry's current `updated_at`,
preserves the invariant, does not decrease `updated_at`, and leaves
`created_at` unchanged. -/
theorem timestamp_invariant_preserved :
    (∀ s a x t, tsInv (CredentialEntry.new s a x t) ∧
      (CredentialEntry.new s a x t).created_at = t ∧
      (CredentialEntry.new s a x t).updated_at = t) ∧
    (∀ e v t, tsInv e → e.updated_at ≤ t →
      tsInv (e.update_service v t) ∧
      e.updated_at ≤ (e.update_service v t).updated_at ∧
      (e.update_service v t).created_at = e.created_at) ∧
    (∀ e v t, tsInv e → e.updated_at ≤ t →
      tsInv (e.update_account v t) ∧
      e.updated_at ≤ (e.update_account v t).updated_at ∧
      (e.update_account v t).created_at = e.created_at) ∧
    (∀ e v t, tsInv e → e.updated_at ≤ t →
      tsInv (e.update_secret v t) ∧
      e.updated_at ≤ (e.update_secret v t).updated_at ∧
      (e.update_secret v t).created_at = e.created_at) := by
  refine ⟨?_, ?_, ?_, ?_⟩ <;> intros <;>
    simp_all [tsInv, CredentialEntry.new, CredentialEntry.update_service,
      CredentialEntry.update_account, CredentialEntry.update_secret] <;> omega

/-- Witness for C4 at a concrete entry and clock values. -/
theorem timestamp_invariant_preserved_witness :
    tsInv (CredentialEntry.new "svc" "acc" "pw" 5) ∧
    tsInv ((CredentialEntry.new "svc" "acc" "pw" 5).update_service "svc2" 7) ∧
    ((CredentialEntry.new "svc" "acc" "pw" 5).update_account "acc2" 7).created_at = 5 ∧
    tsInv ((CredentialEntry.new "svc" "acc" "pw" 5).update_secret "pw2" 7) :=
  ⟨(timestamp_invariant_preserved.1 "svc" "acc" "pw" 5).1,
   (timestamp_invariant_preserved.2.1 (CredentialEntry.new "svc" "acc" "pw" 5) "svc2" 7
      (by decide) (by decide)).1,
   ((timestamp_invariant_preserved.2.2.1 (CredentialEntry.new "svc" "acc" "pw" 5) "acc2" 7
      (by decide) (by decide)).2.2).trans
     ((timestamp_invariant_preserved.1 "svc" "acc" "pw" 5).2.1),
   (timestamp_invariant_preserved.2.2.2 (CredentialEntry.new "svc" "acc" "pw" 5) "pw2" 7
      (by decide) (by decide)).1⟩

/-- C7: `add_entry` appends at the end unconditionally (no duplicate check:
appending an entry whose service is already present still grows the store),
listing preserves insertion order, and the "github" then "gitlab" scenario
lists `["github", "gitlab"]`. -/
theorem add_entry_appends_and_list_order :
    (∀ (db : CredentialDatabase) (e : CredentialEntry),
      (db.add_entry e).entries = db.entries ++ [e]) ∧
    (∀ db : CredentialDatabase,
      db.list_entries.map CredentialEntry.service = db.entries.map CredentialEntry.service) ∧
    (((CredentialDatabase.new.add_entry
        (CredentialEntry.new "github" "dup1" "s1" 1)).add_entry
        (CredentialEntry.new "github" "dup2" "s2" 2)).len = 2) ∧
    (((CredentialDatabase.new.add_entry
        (CredentialEntry.new "github" "alice" "pw1" 10)).add_entry
        (CredentialEntry.new "gitlab" "bob" "pw2" 11)).list_entries.map
          CredentialEntry.service = ["github", "gitlab"]) :=
  ⟨fun _ _ => rfl, fun _ => rfl, rfl, rfl⟩

/-- C8: `exit_code` is injective over the error variants — equal exit codes
force the same variant — and in particular every variant other than
`UserCancelled` gets an exit code different from `UserCancelled`'s. -/
theorem exit_code_injective_on_kinds :
    (∀ e₁ e₂ : CredentialError, e₁.exit_code = e₂.exit_code →
      e₁.kind_index = e₂.kind_index) ∧
    (∀ e : CredentialError, e.kind_index ≠ CredentialError.UserCancelled.kind_index →
      e.exit_code ≠ CredentialError.UserCancelled.exit_code) := by
  constructor
  · intro e₁ e₂ h
    cases e₁ <;> cases e₂ <;>
      simp_all [CredentialError.exit_code, CredentialError.kind_index]
  · intro e h
    cases e <;> simp_all [CredentialError.exit_code, CredentialError.kind_index]

/-- Witness for C8: an ordinary I/O error's exit code differs from the
cancellation exit code. -/
theorem exit_code_injective_on_kinds_witness :
    (CredentialError.IoError .notFound "disk").exit_code ≠
      CredentialError.UserCancelled.exit_code :=
  exit_code_injective_on_kinds.2 (.IoError .notFound "disk") (by decide)

/-- C9: `edit_entry` succeeds exactly when `find_entry` does, and when it
returns index `i`, `find_entry` returns the entry at `i`: the first entry in
insertion order whose service equals the query exactly, every earlier entry
having a different service — also in the presence of duplicates. -/
theorem edit_entry_find_entry_agree (db : CredentialDatabase) (s : String) :
    ((db.edit_entry s).isSome ↔ (db.find_entry s).isSome) ∧
    (∀ i, db.edit_entry s = some i →
      ∃ h : i < db.entries.length,
        db.find_entry s = some (db.entries.get ⟨i, h⟩) ∧
        (db.entries.get ⟨i, h⟩).service = s ∧
        ∀ j (hj : j < db.entries.length), j < i → (db.entries.get ⟨j, hj⟩).service ≠ s) := by
  have h := findIndexOf_spec (fun e => e.service == s) db.entries
  refine ⟨h.1, ?_⟩
  intro i hi
  obtain ⟨hlen, hfind, hp, hprev⟩ := h.2 i hi
  refine ⟨hlen, hfind, by simpa using hp, ?_⟩
  intro j hj hji
  simpa using hprev j hj hji

/-- A store with two entries sharing the service "github". -/
def dbDup : CredentialDatabase :=
  { entries := [CredentialEntry.new "github" "a1" "s1" 1,
                CredentialEntry.new "github" "a2" "s2" 2],
    version := "1.0" }

/-- Witness for C9 on a store with duplicate services: index 0 is designated. -/
theorem edit_entry_find_entry_agree_witness :
    ∃ h : 0 < dbDup.entries.length,
      dbDup.find_entry "github" = some (dbDup.entries.get ⟨0, h⟩) ∧
      (dbDup.entries.get ⟨0, h⟩).service = "github" ∧
      ∀ j (hj : j < dbDup.entries.length), j < 0 →
        (dbDup.entries.get ⟨j, hj⟩).service ≠ "github" :=
  (edit_entry_find_entry_agree dbDup "github").2 0 rfl

/-! ### Claims about the persistence layer -/

/-- C1: with a resolvable home directory, saving a store with well-formed
entries succeeds, and loading afterwards reproduces the very same store —
same entries with all five fields, same order, same version string. -/
theorem save_load_roundtrip (fs : FileSys) (home : List String) (db : CredentialDatabase)
    (hhome : fs.homeDir = some home) (hwf : wellFormedDb db) :
    (save_database db fs).1 = .ok () ∧
    load_database (save_database db fs).2 = .ok db := by
  refine ⟨by simp [save_database, get_database_path, hhome], ?_⟩
  simp [save_database, load_database, get_database_path, hhome, lookup_write_same,
    parseContent, db_roundtrip db hwf]

/-- A concrete file system with a home directory and no files. -/
def fsFresh : FileSys := { homeDir := some ["home"], files := [] }

/-- A concrete store with one entry. -/
def dbSample : CredentialDatabase :=
  { entries := [CredentialEntry.new "github" "alice" "s3cr3t" 42], version := "1.0" }

/-- Witness for C1 at a concrete store and file system. -/
theorem save_load_roundtrip_witness :
    (save_database dbSample fsFresh).1 = .ok () ∧
    load_database (save_database dbSample fsFresh).2 = .ok dbSample :=
  save_load_roundtrip fsFresh ["home"] dbSample rfl (by decide)

/-- C2: with a resolvable home directory, `load_database` on a missing file
returns `Ok` with a fresh empty store, and on an existing file whose content
does not parse as a store it returns the `SerializationError` — in
particular not an empty store, nor any `Ok` at all. -/
theorem load_missing_is_empty_corrupt_is_error (fs : FileSys) (home : List String)
    (hhome : fs.homeDir = some home) :
    (lookupFile fs.files (home ++ [".crab", "credentials.json"]) = none →
      load_database fs = .ok CredentialDatabase.new) ∧
    (∀ c m, lookupFile fs.files (home ++ [".crab", "credentials.json"]) = some c →
      parseContent c = .error m →
      load_database fs = .error (.SerializationError m)) := by
  constructor
  · intro h
    simp [load_database, get_database_path, hhome, h]
  · intro c m hc hm
    simp [load_database, get_database_path, hhome, hc, hm]

/-- A concrete file system whose database file holds text that is not JSON. -/
def fsCorrupt : FileSys :=
  { homeDir := some ["home"],
    files := [(["home", ".crab", "credentials.json"], .raw "not json at all")] }

/-- Witness for C2: the fresh-store case on an empty file system and the
error case on a corrupt file. -/
theorem load_missing_is_empty_corrupt_is_error_witness :
    load_database fsFresh = .ok CredentialDatabase.new ∧
    load_database fsCorrupt = .error (.SerializationError "expected value") :=
  ⟨(load_missing_is_empty_corrupt_is_error fsFresh ["home"] rfl).1 rfl,
   (load_missing_is_empty_corrupt_is_error fsCorrupt ["home"] rfl).2
      (.raw "not json at all") "expected value" rfl rfl⟩

/-- C5: with a resolvable home directory, `backup_database` fails with
`DatabaseNotFound` and leaves the file system exactly unchanged when the
primary file is missing; otherwise it writes the primary file's content to
the sibling path `credentials_<unixtime>.json.bak` in the same `.crab`
directory (with `<unixtime>` the current timestamp) and the primary file
still holds its old content. -/
theorem backup_database_spec (fs : FileSys) (home : List String) (now : Nat)
    (hhome : fs.homeDir = some home) :
    (lookupFile fs.files (home ++ [".crab", "credentials.json"]) = none →
      backup_database now fs = (.error .DatabaseNotFound, fs)) ∧
    (∀ c, lookupFile fs.files (home ++ [".crab", "credentials.json"]) = some c →
      (backup_database now fs).1 = .ok () ∧
      (backup_database now fs).2.homeDir = fs.homeDir ∧
      (backup_database now fs).2.files =
        writeFile fs.files (home ++ [".crab", backup_filename now]) c ∧
      lookupFile (backup_database now fs).2.files
        (home ++ [".crab", "credentials.json"]) = some c) := by
  constructor
  · intro h
    simp [backup_database, get_database_path, hhome, h]
  · intro c hc
    have hwfn := with_file_name_db_path home (backup_filename now)
    refine ⟨by simp [backup_database, get_database_path, hhome, hc, hwfn],
      by simp [backup_database, get_database_path, hhome, hc, hwfn],
      by simp [backup_database, get_database_path, hhome, hc, hwfn], ?_⟩
    simp only [backup_database, get_database_path, hhome, hc, hwfn]
    rw [lookup_write_ne _ _ _ _ (backup_path_ne home now)]
    exact hc

/-- A concrete file system holding a database file. -/
def fsWithDb : FileSys :=
  { homeDir := some ["home"],
    files := [(["home", ".crab", "credentials.json"], .json (dbToJson dbSample))] }

/-- Witness for C5: the error case on an empty file system and the copy case
on a stored database, at timestamp 1700000000. -/
theorem backup_database_spec_witness :
    backup_database 1700000000 fsFresh = (.error .DatabaseNotFound, fsFresh) ∧
    (backup_database 1700000000 fsWithDb).2.files =
      writeFile fsWithDb.files
        (["home", ".crab"] ++ [backup_filename 1700000000])
        (.json (dbToJson dbSample)) :=
  ⟨(backup_database_spec fsFresh ["home"] 1700000000 rfl).1 rfl,
   ((backup_database_spec fsWithDb ["home"] 1700000000 rfl).2
      (.json (dbToJson dbSample)) rfl).2.2.1⟩

/-- C6 counterexample: when the home directory cannot be determined,
`get_database_path` produces the ordinary `IoError` variant — the same
variant the `From<std::io::Error>` conversion produces — not a distinct
`PathResolutionError` kind (no such variant exists in `CredentialError`). -/
theorem path_resolution_error_is_io_error :
    get_database_path { homeDir := none, files := [] } =
      .error (.IoError .notFound "Home directory not found") ∧
    (CredentialError.IoError .notFound "Home directory not found").is_io_error = true :=
  ⟨rfl, rfl⟩

/-- C6 amended: when the home directory cannot be determined,
`get_database_path` fails with `CredentialError::IoError` wrapping a
`NotFound` I/O error with message "Home directory not found"; the error
taxonomy has no `PathResolutionError` variant. -/
theorem get_database_path_no_home (fs : FileSys) (h : fs.homeDir = none) :
    get_database_path fs = .error (.IoError .notFound "Home directory not found") := by
  simp [get_database_path, h]

/-- Witness for the amended C6 at a concrete homeless file system. -/
theorem get_database_path_no_home_witness :
    get_database_path { homeDir := none, files := [(["tmp"], .raw "x")] } =
      .error (.IoError .notFound "Home directory not found") :=
  get_database_path_no_home { homeDir := none, files := [(["tmp"], .raw "x")] } rfl

/-- C10: when the database file does not exist (home directory resolvable),
both `backup_database` and `delete_database` fail with `DatabaseNotFound`
and return the file-system state exactly as it was: no file created,
modified or removed. -/
theorem not_found_failures_change_nothing (fs : FileSys) (home : List String)
    (hhome : fs.homeDir = some home)
    (habs : lookupFile fs.files (home ++ [".crab", "credentials.json"]) = none) :
    (∀ now, backup_database now fs = (.error .DatabaseNotFound, fs)) ∧
    delete_database fs = (.error .DatabaseNotFound, fs) := by
  constructor
  · intro now
    simp [backup_database, get_database_path, hhome, habs]
  · simp [delete_database, get_database_path, hhome, habs]

/-- A file system with a home directory and one unrelated file. -/
def fsOtherFile : FileSys :=
  { homeDir := some ["home"], files := [(["home", "notes.txt"], .raw "hello")] }

/-- Witness for C10 on a file system holding only an unrelated file. -/
theorem not_found_failures_change_nothing_witness :
    backup_database 7 fsOtherFile = (.error .DatabaseNotFound, fsOtherFile) ∧
    delete_database fsOtherFile = (.error .DatabaseNotFound, fsOtherFile) :=
  ⟨(not_found_failures_change_nothing fsOtherFile ["home"] rfl rfl).1 7,
   (not_found_failures_change_nothing fsOtherFile ["home"] rfl rfl).2⟩

end Crab
